import Mathlib

/-!
Shallow embedding of the tsunami_benchmarks repository scripts, and proofs of
the behavioural claims about them.

Conventions used throughout:
* Python floats that are only stored, added, multiplied, divided and compared
  are modelled as exact rationals `ℚ`; values built with `sqrt` are modelled
  as exact reals `ℝ`.
* The float value `nan` (used by the source as a "no data" marker) is
  modelled by `Option.none`.
* Python dictionaries are modelled as association lists in insertion order;
  `dictSet` is dictionary assignment (replace an existing key, else append).
* A Python function that can raise is modelled with `Except`, the error value
  naming the exception raised.
-/

namespace DebrisSquares

/-! Embedding of `src/nthmp_debris_2023/BM1/test1/debris_squares_fgout_animate.py`. -/

/-- One row `[t, x, y, u, v]` of a debris path history array. -/
structure Row where
  t : ℚ
  x : ℚ
  y : ℚ
  u : ℚ
  v : ℚ
deriving DecidableEq, Repr

/-- Module-level constant `length = 0.6`, the square side length. -/
def length : ℚ := 0.6

/-- Module-level constant `Kspring = 50.`. -/
def Kspring : ℚ := 50

/-- Module-level constant `nsubsteps = 20`. -/
def nsubsteps : ℕ := 20

/-- The tether lookup of the script: rest length and stiffness for a pair of
debris ids.  The float `nan` returned for an untethered pair is modelled as
`none`; the rest lengths `length` and `length * sqrt 2` are exact reals. -/
noncomputable def tether (dbno1 dbno2 : ℤ) : Option ℝ × ℝ :=
  if |dbno1 - dbno2| = 1000 ∨ |dbno1 - dbno2| = 3000 then
    -- adjacent sides of square
    ((length : ℝ), 50)
  else if |dbno1 - dbno2| = 2000 then
    -- diagonal of square
    ((length : ℝ) * Real.sqrt 2, 50)
  else
    (none, 0)

end DebrisSquares

namespace DebrisSquares

lemma side_ne_diag : ((length : ℝ)) ≠ (length : ℝ) * Real.sqrt 2 := by
  intro h
  have hl : ((length : ℝ)) ≠ 0 := by
    norm_num [length]
  have h1 : (length : ℝ) * 1 = (length : ℝ) * Real.sqrt 2 := by
    rw [mul_one]; exact h
  have h2 : (1 : ℝ) = Real.sqrt 2 := mul_left_cancel₀ hl h1
  have h3 := Real.sq_sqrt (by norm_num : (0:ℝ) ≤ 2)
  rw [← h2] at h3
  norm_num at h3

/-- Claim C1: for every pair of integer ids, `tether` returns the square-side
rest length 0.6 with stiffness 50 exactly when `|i - j|` is 1000 or 3000, the
diagonal rest length `0.6 * sqrt 2` with stiffness 50 exactly when `|i - j|`
is 2000, and no rest length (the float nan, modelled `none`) with stiffness 0
for every other pair. -/
theorem tether_cases (i j : ℤ) :
    (tether i j = (some (length : ℝ), 50) ↔ (|i - j| = 1000 ∨ |i - j| = 3000))
    ∧ (tether i j = (some ((length : ℝ) * Real.sqrt 2), 50) ↔ |i - j| = 2000)
    ∧ (tether i j = (none, 0) ↔
        ¬(|i - j| = 1000 ∨ |i - j| = 2000 ∨ |i - j| = 3000)) := by
  by_cases h13 : |i - j| = 1000 ∨ |i - j| = 3000
  · have h2 : ¬ |i - j| = 2000 := by rcases h13 with h | h <;> omega
    refine ⟨?_, ?_, ?_⟩
    · simp [tether, h13]
    · simp only [tether, if_pos h13]
      constructor
      · intro h
        exact absurd (Option.some.inj (congrArg Prod.fst h)) side_ne_diag
      · intro h; exact absurd h h2
    · simp [tether, h13]
      tauto
  · by_cases h2 : |i - j| = 2000
    · refine ⟨?_, ?_, ?_⟩
      · simp only [tether, if_neg h13, if_pos h2]
        constructor
        · intro h
          exact absurd (Option.some.inj (congrArg Prod.fst h)).symm side_ne_diag
        · intro h; exact absurd h h13
      · simp [tether, h13, h2]
      · simp [tether, h13, h2]
    · refine ⟨?_, ?_, ?_⟩
      · simp [tether, h13, h2]
      · simp [tether, h13, h2]
      · simp [tether, h13, h2]

/-- Claim C2: the tether relation is symmetric, and whenever no tether is
defined between `i` and `j` (no id offset of 1000, 2000 or 3000) the returned
stiffness is 0, so no constraint force arises. -/
theorem tether_symm (i j : ℤ) :
    tether i j = tether j i
    ∧ (¬(|i - j| = 1000 ∨ |i - j| = 2000 ∨ |i - j| = 3000) →
        (tether i j).2 = 0) := by
  constructor
  · have habs : |i - j| = |j - i| := abs_sub_comm i j
    simp only [tether, habs]
  · intro h
    push_neg at h
    obtain ⟨h1, h2, h3⟩ := h
    simp [tether, h1, h2, h3]

/-- Witness for C2 at the concrete pair (0, 1): the symmetry equation holds
and, since no tether is defined between ids 0 and 1, the stiffness is 0. -/
theorem tether_symm_witness :
    tether 0 1 = tether 1 0 ∧ (tether 0 1).2 = 0 :=
  ⟨(tether_symm 0 1).1, (tether_symm 0 1).2 (by decide)⟩

end DebrisSquares

namespace DebrisSquares

/-- Dictionary assignment `d[k] = v` on an insertion-ordered association
list: replace the value of an existing key, else append the new key. -/
def dictSet {α : Type} : List (ℤ × α) → ℤ → α → List (ℤ × α)
  | [], k, v => [(k, v)]
  | (k', v') :: rest, k, v =>
      if k' = k then (k, v) :: rest else (k', v') :: dictSet rest k v

/-- Initial particle velocity `u0 = 0.`. -/
def u0 : ℚ := 0

/-- Initial particle velocity `v0 = 0.`. -/
def v0 : ℚ := 0

/-- The list `xg1 = [34.34]`. -/
def xg1 : List ℚ := [34.34]

/-- The list `yg1 = [0.82]`. -/
def yg1 : List ℚ := [0.82]

/-- `xgg` after the loop appending each `xg` of `xg1` once per `yg` of
`yg1` to the initial `[35.54]`. -/
def xgg : List ℚ := List.foldl (fun a xg => List.foldl (fun a _ => a ++ [xg]) a yg1) [35.54] xg1

/-- `ygg` after the loop appending `yg1` values to the initial `[1.22]`. -/
def ygg : List ℚ := List.foldl (fun a _ => List.foldl (fun a yg => a ++ [yg]) a yg1) [1.22] xg1

/-- `grounding_depth_common = 0.`. -/
def grounding_depth_common : ℚ := 0

/-- `drag_factor_common = 1.`. -/
def drag_factor_common : ℚ := 1

/-- `mass_common = 1.`. -/
def mass_common : ℚ := 1

/-- `dradius_common = 0.2`. -/
def dradius_common : ℚ := 0.2

/-- The module-level mutable state built by the particle-initialization
loop: the five per-particle dictionaries and the id lists. -/
structure InitData where
  debris_paths : List (ℤ × List Row)
  dbnos : List ℤ
  dbnosA : List ℤ
  grounding_depth : List (ℤ × ℚ)
  drag_factor : List (ℤ × ℚ)
  mass : List (ℤ × ℚ)
  dradius : List (ℤ × ℚ)

/-- State before the initialization loop: empty dictionaries and lists. -/
def emptyInit : InitData :=
  ⟨[], [], [], [], [], [], []⟩

/-- Register one particle: assign its initial one-row path history and its
entries in the four property dictionaries, and append its id to `dbnos`. -/
def addParticle (d : InitData) (dbno : ℤ) (x y : ℚ) (t0 : ℚ) : InitData :=
  { d with
    debris_paths := dictSet d.debris_paths dbno [⟨t0, x, y, u0, v0⟩]
    dbnos := d.dbnos ++ [dbno]
    grounding_depth := dictSet d.grounding_depth dbno grounding_depth_common
    drag_factor := dictSet d.drag_factor dbno drag_factor_common
    mass := dictSet d.mass dbno mass_common
    dradius := dictSet d.dradius dbno dradius_common }

/-- Body of `for k in range(len(xgg))`: create particle `k` (lower-left
corner, also recorded in `dbnosA`) and its three square partners at id
offsets 1000, 2000, 3000. -/
def initBody (t0 : ℚ) (d : InitData) (k : ℕ) : InitData :=
  let dbno : ℤ := (k : ℤ)
  let xk := xgg.getD k 0
  let yk := ygg.getD k 0
  let d := addParticle d dbno xk yk t0
  let d := { d with dbnosA := d.dbnosA ++ [dbno] }
  let d := addParticle d (dbno + 1000) xk (yk + length) t0
  let d := addParticle d (dbno + 2000) (xk + length) (yk + length) t0
  addParticle d (dbno + 3000) (xk + length) yk t0

/-- The particle-initialization loop over `range(len(xgg))`. -/
def initLoop (t0 : ℚ) : InitData :=
  (List.range xgg.length).foldl (initBody t0) emptyInit

/-- The mass-update loop `for dbno in dbnos: if mod(dbno,1000) == 0:
mass[dbno] = 1e6` run after the initialization loop. -/
def applyMassUpdate (d : InitData) : InitData :=
  { d with
    mass := d.dbnos.foldl
      (fun m dbno => if dbno % 1000 = 0 then dictSet m dbno 1000000 else m)
      d.mass }

/-- The module-level per-particle state after both loops. -/
def initData (t0 : ℚ) : InitData :=
  applyMassUpdate (initLoop t0)

/-- Claim C10: after the particle-initialization loop (and the mass-update
loop), the five per-particle dictionaries all have exactly the id list
`dbnos` as their key set; `mass` holds 1e6 exactly at the ids divisible by
1000 and 1.0 elsewhere; and `grounding_depth`, `drag_factor` and `dradius`
hold the common values 0.0, 1.0 and 0.2 at every id. -/
theorem initData_dicts (t0 : ℚ) :
    (initData t0).debris_paths.map Prod.fst = (initData t0).dbnos
    ∧ (initData t0).grounding_depth.map Prod.fst = (initData t0).dbnos
    ∧ (initData t0).drag_factor.map Prod.fst = (initData t0).dbnos
    ∧ (initData t0).mass.map Prod.fst = (initData t0).dbnos
    ∧ (initData t0).dradius.map Prod.fst = (initData t0).dbnos
    ∧ (initData t0).mass =
        (initData t0).dbnos.map
          (fun i => (i, if i % 1000 = 0 then 1000000 else 1))
    ∧ (initData t0).grounding_depth =
        (initData t0).dbnos.map (fun i => (i, 0))
    ∧ (initData t0).drag_factor =
        (initData t0).dbnos.map (fun i => (i, 1))
    ∧ (initData t0).dradius =
        (initData t0).dbnos.map (fun i => (i, 0.2)) := by
  exact ⟨rfl, rfl, rfl, rfl, rfl, rfl, rfl, rfl, rfl⟩

end DebrisSquares

namespace DebrisSquares

/-- Indices `j` of history rows whose time is within 1e-6 of `t`, in
ascending order, starting at index `j0`: the model of
`where(abs(dbA[:,0]-t) < 1e-6)[0]`. -/
def matchIdxsAux (t : ℚ) : ℕ → List Row → List ℕ
  | _, [] => []
  | j, r :: rest =>
      if |r.t - t| < 1/1000000 then j :: matchIdxsAux t (j+1) rest
      else matchIdxsAux t (j+1) rest

/-- Indices of history rows whose time is within 1e-6 of `t`. -/
def matchIdxs (db : List Row) (t : ℚ) : List ℕ :=
  matchIdxsAux t 0 db

/-- The largest matching row index, the model of
`where(abs(dbA[:,0]-t) < 1e-6)[0].max()`; `none` models the empty-array
case where `.max()` raises and the `except` branch is taken. -/
def lastMatch (db : List Row) (t : ℚ) : Option ℕ :=
  (matchIdxs db t).getLast?

/-- Contribution of one group of four particles `a, a+1000, a+2000, a+3000`
to the coordinate arrays of `make_dbABCD`.  When no row of the history of
`a` matches `t`, the source prints a diagnostic and sets the sentinel
`j = -1`, so the `if j > -1` block is skipped and nothing is contributed.
When a match is found, the four histories are indexed at `j`; an index past
the end of one of the partner histories would raise an uncaught IndexError
in the source, modelled as an `Except.error`.  The trailing `nan` separator
appended after each closed square is modelled as `none`. -/
def groupContrib (t : ℚ) (debris_paths : ℤ → List Row) (dbnoA : ℤ) :
    Except String (List (Option ℚ) × List (Option ℚ)) :=
  let dbA := debris_paths dbnoA
  let dbB := debris_paths (dbnoA + 1000)
  let dbC := debris_paths (dbnoA + 2000)
  let dbD := debris_paths (dbnoA + 3000)
  let j : ℤ := match lastMatch dbA t with
    | none => -1
    | some j => (j : ℤ)
  if j > -1 then
    match dbA.get? j.toNat, dbB.get? j.toNat, dbC.get? j.toNat,
        dbD.get? j.toNat with
    | some rA, some rB, some rC, some rD =>
        .ok ([some rA.x, some rB.x, some rC.x, some rD.x, some rA.x, none],
             [some rA.y, some rB.y, some rC.y, some rD.y, some rA.y, none])
    | _, _, _, _ => .error "IndexError"
  else
    .ok ([], [])

/-- The accumulation loop `for k in range(len(dbnosA))` of `make_dbABCD`,
carrying the growing pair of coordinate lists `(xdAB, ydAB)`. -/
def dbLoop (t : ℚ) (debris_paths : ℤ → List Row) :
    List ℤ → List (Option ℚ) × List (Option ℚ) →
    Except String (List (Option ℚ) × List (Option ℚ))
  | [], acc => .ok acc
  | a :: rest, acc =>
      match groupContrib t debris_paths a with
      | .error e => .error e
      | .ok c => dbLoop t debris_paths rest (acc.1 ++ c.1, acc.2 ++ c.2)

/-- `make_dbABCD(t, debris_paths, dbnosA)`: concatenate the group
contributions over `dbnosA` into the two coordinate arrays. -/
def make_dbABCD (t : ℚ) (debris_paths : ℤ → List Row) (dbnosA : List ℤ) :
    Except String (List (Option ℚ) × List (Option ℚ)) :=
  dbLoop t debris_paths dbnosA ([], [])

lemma matchIdxsAux_eq_nil (t : ℚ) (db : List Row)
    (h : ∀ r ∈ db, ¬ |r.t - t| < 1/1000000) :
    ∀ j, matchIdxsAux t j db = [] := by
  induction db with
  | nil => intro j; rfl
  | cons r rest ih =>
      intro j
      have hr : ¬ |r.t - t| < 1/1000000 := h r (List.mem_cons_self r rest)
      have hrest : ∀ r ∈ rest, ¬ |r.t - t| < 1/1000000 :=
        fun r hm => h r (List.mem_cons_of_mem _ hm)
      unfold matchIdxsAux
      rw [if_neg hr]
      exact ih hrest (j + 1)

lemma groupContrib_of_no_match (t : ℚ) (debris_paths : ℤ → List Row)
    (a : ℤ) (h : ∀ r ∈ debris_paths a, ¬ |r.t - t| < 1/1000000) :
    groupContrib t debris_paths a = .ok ([], []) := by
  have hm : lastMatch (debris_paths a) t = none := by
    unfold lastMatch matchIdxs
    rw [matchIdxsAux_eq_nil t _ h 0]
    rfl
  simp [groupContrib, hm]

lemma dbLoop_skip (t : ℚ) (debris_paths : ℤ → List Row) (a : ℤ)
    (hg : groupContrib t debris_paths a = .ok ([], [])) (l1 l2 : List ℤ)
    (acc : List (Option ℚ) × List (Option ℚ)) :
    dbLoop t debris_paths (l1 ++ a :: l2) acc
      = dbLoop t debris_paths (l1 ++ l2) acc := by
  induction l1 generalizing acc with
  | nil =>
      simp only [List.nil_append, dbLoop, hg, List.append_nil]
  | cons b l1 ih =>
      simp only [List.cons_append, dbLoop]
      cases groupContrib t debris_paths b with
      | error e => rfl
      | ok c => exact ih _

/-- Claim C3: a query time `t` with no matching sample (within 1e-6) in the
history of group leader `a` is non-fatal: the group contributes no
coordinates (the sentinel `j = -1` skips the `if j > -1` block after the
diagnostic is printed), no exception is raised for that group, and
`make_dbABCD` produces the same result as if the group were absent,
processing all remaining groups. -/
theorem make_dbABCD_no_match (t : ℚ) (debris_paths : ℤ → List Row)
    (a : ℤ) (l1 l2 : List ℤ)
    (h : ∀ r ∈ debris_paths a, ¬ |r.t - t| < 1/1000000) :
    groupContrib t debris_paths a = .ok ([], [])
    ∧ make_dbABCD t debris_paths (l1 ++ a :: l2)
      = make_dbABCD t debris_paths (l1 ++ l2) := by
  have hg := groupContrib_of_no_match t debris_paths a h
  exact ⟨hg, dbLoop_skip t debris_paths a hg l1 l2 ([], [])⟩

/-- Witness for C3: with every history empty, the query at `t = 0` for
group 5 finds no sample, so the group contributes nothing and the call on
`[5, 7]` equals the call on `[7]`. -/
theorem make_dbABCD_no_match_witness :
    groupContrib 0 (fun _ => []) 5 = .ok ([], [])
    ∧ make_dbABCD 0 (fun _ => []) ([] ++ 5 :: [7])
      = make_dbABCD 0 (fun _ => []) ([] ++ [7]) :=
  make_dbABCD_no_match 0 (fun _ => []) 5 [] [7] (by simp)

end DebrisSquares

namespace FgoutParticles

/-!
Modelled from the spec: the module `fgout_particles` (imported as `P` by the
debris script) is not part of this repository, so the debris-path integrator
`make_debris_paths_substeps` and its per-sub-step force computations are
modelled from the specification text (section 4.1): per frame interval the
integrator performs `n` equal sub-steps updating each particle state, and at
the end of the interval appends one `(t, x, y, u, v)` sample at the new
frame time to each path history.  Bilinear spatial interpolation of the flow
grid is abstracted as the interpolated field functions carried by a frame.
-/

/-- Modelled from the spec: a flow-field snapshot (FlowFrame) at time `t`;
the bilinearly interpolated depth and velocity fields are carried as
functions of position. -/
structure Frame where
  t : ℚ
  depth : ℚ → ℚ → ℚ
  uflow : ℚ → ℚ → ℚ
  vflow : ℚ → ℚ → ℚ

/-- Modelled from the spec: the mutable state of one particle. -/
structure PState where
  x : ℚ
  y : ℚ
  u : ℚ
  v : ℚ
deriving DecidableEq, Repr

/-- Modelled from the spec: the drag force computed in each sub-step, a
function of the relative velocity (flow minus particle) scaled by
`drag_factor`, and exactly zero when the local interpolated depth `h` is
below the particle's grounding-depth threshold (the particle is grounded). -/
def dragForce (drag_factor grounding_depth h uflow vflow u v : ℚ) : ℚ × ℚ :=
  if h < grounding_depth then (0, 0)
  else (drag_factor * (uflow - u), drag_factor * (vflow - v))

/-- Modelled from the spec: `n` equal sub-steps across one frame interval,
each applying the per-sub-step state update `sub` (forces and forward-Euler
integration) with the two bracketing frames and the sub-step size `dt`. -/
def substepIter (sub : Frame → Frame → ℚ → PState → PState)
    (f0 f1 : Frame) (dt : ℚ) : ℕ → PState → PState
  | 0, s => s
  | n + 1, s => substepIter sub f0 f1 dt n (sub f0 f1 dt s)

/-- The path-history sample `(t, x, y, u, v)` appended at a frame time. -/
def sampleOf (t : ℚ) (s : PState) : DebrisSquares.Row :=
  ⟨t, s.x, s.y, s.u, s.v⟩

/-- Modelled from the spec: process the frame intervals in order; between
consecutive frames run `n` sub-steps, then append one sample at the later
frame's time to the path history. -/
def runFrames (sub : Frame → Frame → ℚ → PState → PState) (n : ℕ) :
    Frame → List Frame → PState → List DebrisSquares.Row →
    List DebrisSquares.Row
  | _, [], _, hist => hist
  | f0, f1 :: rest, s, hist =>
      let dt := (f1.t - f0.t) / (n : ℚ)
      let s1 := substepIter sub f0 f1 dt n s
      runFrames sub n f1 rest s1 (hist ++ [sampleOf f1.t s1])

/-- Modelled from the spec: `make_debris_paths_substeps` for one particle,
starting from its initial history `hist0` (one row at the first frame's
time) and state `s0`, over the listed frames. -/
def make_debris_paths_substeps (sub : Frame → Frame → ℚ → PState → PState)
    (n : ℕ) (frames : List Frame) (s0 : PState)
    (hist0 : List DebrisSquares.Row) : List DebrisSquares.Row :=
  match frames with
  | [] => hist0
  | f0 :: rest => runFrames sub n f0 rest s0 hist0

lemma runFrames_map_t (sub : Frame → Frame → ℚ → PState → PState) (n : ℕ)
    (rest : List Frame) :
    ∀ (f0 : Frame) (s : PState) (hist : List DebrisSquares.Row),
      (runFrames sub n f0 rest s hist).map DebrisSquares.Row.t
        = hist.map DebrisSquares.Row.t ++ rest.map Frame.t := by
  induction rest with
  | nil => intro f0 s hist; simp [runFrames]
  | cons f1 rest ih =>
      intro f0 s hist
      simp [runFrames, ih, sampleOf]

/-- Claim C6: a particle whose local interpolated depth `h` is below its
grounding-depth threshold is grounded: the drag force computed in the
sub-step is exactly zero, regardless of the flow velocity at the particle's
position. -/
theorem dragForce_grounded (drag_factor grounding_depth h uflow vflow u v : ℚ)
    (hh : h < grounding_depth) :
    dragForce drag_factor grounding_depth h uflow vflow u v = (0, 0) := by
  simp [dragForce, hh]

/-- Witness for C6 at a concrete grounded particle (`h = 0` below the
threshold 1) in a fast flow (`uflow = vflow = 100`): zero drag force. -/
theorem dragForce_grounded_witness :
    (0 : ℚ) < 1 ∧ dragForce 1 1 0 100 100 0 0 = (0, 0) :=
  ⟨by norm_num, dragForce_grounded 1 1 0 100 100 0 0 (by norm_num)⟩

end FgoutParticles

namespace FgoutParticles

/-- Claim C5: with `t0` the time of the first processed fgout frame, every
particle's path history is initialized with exactly one sample at time
`t0`; and (integrator modelled from the spec) running the sub-stepped
integrator over frames with strictly increasing times turns any such
one-row history into a history whose time column equals the supplied frame
times exactly, hence is strictly increasing. -/
theorem path_history_times (t0 : ℚ)
    (sub : Frame → Frame → ℚ → PState → PState) (n : ℕ)
    (f0 : Frame) (rest : List Frame) (s0 : PState)
    (ht0 : f0.t = t0)
    (hinc : List.Chain' (· < ·) ((f0 :: rest).map Frame.t)) :
    (∀ p ∈ (DebrisSquares.initData t0).debris_paths,
        p.2.map DebrisSquares.Row.t = [t0])
    ∧ ∀ hist0 : List DebrisSquares.Row,
        hist0.map DebrisSquares.Row.t = [t0] →
        (make_debris_paths_substeps sub n (f0 :: rest) s0 hist0).map
            DebrisSquares.Row.t
          = (f0 :: rest).map Frame.t
        ∧ List.Chain' (· < ·)
            ((make_debris_paths_substeps sub n (f0 :: rest) s0 hist0).map
              DebrisSquares.Row.t) := by
  constructor
  · intro p hp
    fin_cases hp <;> rfl
  · intro hist0 hhist
    have heq : (make_debris_paths_substeps sub n (f0 :: rest) s0 hist0).map
        DebrisSquares.Row.t = (f0 :: rest).map Frame.t := by
      simp only [make_debris_paths_substeps, runFrames_map_t, hhist,
        List.map_cons, ht0, List.singleton_append]
    exact ⟨heq, heq ▸ hinc⟩

/-- Witness for C5: two concrete frames at times 0 and 1 with zero flow, a
trivial sub-step update and the one-row initial history at time 0 give the
history time column `[0, 1]`, strictly increasing. -/
theorem path_history_times_witness :
    (make_debris_paths_substeps (fun _ _ _ s => s) 1
        [⟨0, fun _ _ => 0, fun _ _ => 0, fun _ _ => 0⟩,
         ⟨1, fun _ _ => 0, fun _ _ => 0, fun _ _ => 0⟩]
        ⟨0, 0, 0, 0⟩ [⟨0, 35.54, 1.22, 0, 0⟩]).map DebrisSquares.Row.t
      = [0, 1] :=
  ((path_history_times 0 (fun _ _ _ s => s) 1
      ⟨0, fun _ _ => 0, fun _ _ => 0, fun _ _ => 0⟩
      [⟨1, fun _ _ => 0, fun _ _ => 0, fun _ _ => 0⟩]
      ⟨0, 0, 0, 0⟩ rfl (by simp [List.chain'_cons])).2
    [⟨0, 35.54, 1.22, 0, 0⟩] rfl).1

/-- Claim C4: the debris-path computation is deterministic.  In the
embedding all three ingredients are pure functions of their arguments:
`tether`, `make_dbABCD` and the (spec-modelled) sub-stepped integrator give
bit-for-bit equal results on equal inputs; no randomness or concurrency
appears anywhere in their definitions. -/
theorem debris_paths_deterministic
    (i j i' j' : ℤ) (hi : i = i') (hj : j = j')
    (t t' : ℚ) (dp dp' : ℤ → List DebrisSquares.Row) (l l' : List ℤ)
    (ht : t = t') (hdp : dp = dp') (hl : l = l')
    (sub sub' : Frame → Frame → ℚ → PState → PState) (n n' : ℕ)
    (fs fs' : List Frame) (s0 s0' : PState)
    (h0 h0' : List DebrisSquares.Row)
    (hsub : sub = sub') (hn : n = n') (hfs : fs = fs') (hs0 : s0 = s0')
    (hh0 : h0 = h0') :
    DebrisSquares.tether i j = DebrisSquares.tether i' j'
    ∧ DebrisSquares.make_dbABCD t dp l = DebrisSquares.make_dbABCD t' dp' l'
    ∧ make_debris_paths_substeps sub n fs s0 h0
      = make_debris_paths_substeps sub' n' fs' s0' h0' := by
  subst hi hj ht hdp hl hsub hn hfs hs0 hh0
  exact ⟨rfl, rfl, rfl⟩

/-- Witness for C4 at concrete equal inputs: two runs of each function on
the same data give the same result. -/
theorem debris_paths_deterministic_witness :
    DebrisSquares.tether 0 1000 = DebrisSquares.tether 0 1000
    ∧ DebrisSquares.make_dbABCD 0 (fun _ => []) [5]
      = DebrisSquares.make_dbABCD 0 (fun _ => []) [5]
    ∧ make_debris_paths_substeps (fun _ _ _ s => s) 20 [] ⟨0, 0, 0, 0⟩ []
      = make_debris_paths_substeps (fun _ _ _ s => s) 20 [] ⟨0, 0, 0, 0⟩ [] :=
  debris_paths_deterministic 0 1000 0 1000 rfl rfl
    0 0 (fun _ => []) (fun _ => []) [5] [5] rfl rfl rfl
    (fun _ _ _ s => s) (fun _ _ _ s => s) 20 20 [] [] ⟨0, 0, 0, 0⟩
    ⟨0, 0, 0, 0⟩ [] [] rfl rfl rfl rfl rfl

end FgoutParticles

namespace MonaiSetrun

/-!
Embedding of the module-level code of
`src/nthmp_currents_2015/MonaiValley/setrun.py`.  The operating-system
environment is modelled as a partial map from variable names to values;
loading the module evaluates its top-level statements, which read `CLAW`
(raising a descriptive exception when unset) and build the scratch
directory path.  Run parameters are only built later, by `setrun`, which
the module-level code never calls, and a raised exception aborts the load
with no retry.
-/

/-- Module load: `try: CLAW = os.environ[CLAW-variable] except: raise` and
the `scratch_dir` assignment. -/
def module_load (env : String → Option String) : Except String String :=
  match env "CLAW" with
  | none => .error "*** Must first set CLAW enviornment variable"
  | some CLAW => .ok (CLAW ++ "/geoclaw/scratch/cascais_all")

end MonaiSetrun

namespace Japan1Setrun

/-!
Embedding of `src/nthmp_currents_2015/problem2/from_japan1/setrun.py`:
the module-level topo/dtopo directory checks, and the `setrun`/`setgeo`
functions.  Directory existence is modelled by a predicate `isdir`.
-/

/-- The topo directory path derived from `HOME`. -/
def topodir (home : String) : String := home ++ "/git/tohoku2011/topo/"

/-- The dtopo directory path derived from `HOME`. -/
def dtopodir (home : String) : String :=
  home ++ "/git/tohoku2011-paper1/sources/"

/-- Module load: read `HOME` (an unset `HOME` raises an uncaught KeyError),
then check that the topo directory and then the dtopo directory exist,
raising an error naming the missing directory; a raised error aborts the
load with no retry. -/
def module_load (env : String → Option String) (isdir : String → Bool) :
    Except String (String × String) :=
  match env "HOME" with
  | none => .error "KeyError: HOME"
  | some home =>
      if isdir (topodir home) = false then
        .error ("*** Missing topo directory: " ++ topodir home)
      else if isdir (dtopodir home) = false then
        .error ("*** Missing dtopo directory: " ++ dtopodir home)
      else
        .ok (topodir home, dtopodir home)

/-- The Python exceptions raised by `setrun`/`setgeo`. -/
inductive PyErr where
  | unboundLocal (name : String)
  | attributeError (msg : String)
  | assertionError (msg : String)
deriving DecidableEq, Repr

/-- A minimal model of the `ClawRunData` object: whether it carries a
`geo_data` attribute, and one representative physics parameter. -/
structure RunData where
  has_geo_data : Bool
  gravity : ℚ
deriving DecidableEq, Repr

/-- The freshly constructed `ClawRunData(claw_pkg, 2)` (external
collaborator; it does carry a `geo_data` attribute). -/
def newClawRunData : RunData := ⟨true, 0⟩

/-- The geo parameter assignments performed by the body of `setgeo` after
its guard (representative field only; the remaining assignments are plain
configuration of the same shape and are unreachable, see `setgeo`). -/
def applyGeoSettings (rd : RunData) : RunData := { rd with gravity := 9.81 }

/-- `setgeo(rundata)`.  The guard at line 425 evaluates
`hasattr(geo_data, ...)` on the name `geo_data`; because `geo_data` is
assigned at line 426, Python compiles it as a local variable of `setgeo`,
and at the guard it is still unbound, so the guard raises
UnboundLocalError.  The local environment at the guard is modelled by the
`let`: the local `geo_data` holds no value yet. -/
def setgeo (rundata : RunData) : Except PyErr RunData :=
  let geo_data : Option RunData := none
  match geo_data with
  | none => .error (.unboundLocal "geo_data")
  | some gd =>
      if gd.has_geo_data then
        .ok (applyGeoSettings rundata)
      else
        .error (.attributeError
          "*** Error, this rundata has no geo_data attribute")

/-- `setrun(claw_pkg)`: assert the package name, construct the run data,
and call `setgeo` unconditionally; the remaining clawdata configuration
(plain parameter assignments) runs only if `setgeo` returns. -/
def setrun (claw_pkg : String) : Except PyErr RunData :=
  if claw_pkg.toLower = "geoclaw" then
    match setgeo newClawRunData with
    | .error e => .error e
    | .ok rd => .ok rd
  else
    .error (.assertionError "Expected claw_pkg = geoclaw")

/-- Claim C8: for every rundata argument, `setgeo` raises
UnboundLocalError for `geo_data` before reading `rundata` (the result does
not depend on `rundata` at all), so the documented AttributeError branch is
unreachable, and `setrun`, which calls `setgeo` unconditionally, never
returns normally: its result is always an error (the UnboundLocalError, or
the AssertionError for a wrong package name). -/
theorem setgeo_unbound_local :
    (∀ rd : RunData, setgeo rd = .error (.unboundLocal "geo_data"))
    ∧ (∀ claw_pkg : String,
        setrun claw_pkg = .error (.unboundLocal "geo_data")
        ∨ setrun claw_pkg
          = .error (.assertionError "Expected claw_pkg = geoclaw")) := by
  refine ⟨fun rd => rfl, fun claw_pkg => ?_⟩
  by_cases h : claw_pkg.toLower = "geoclaw"
  · left
    simp [setrun, h, setgeo]
  · right
    simp [setrun, h]

end Japan1Setrun

namespace MonaiSetrun

/-- Claim C7: missing required environment configuration fails fast and is
fatal.  If `CLAW` is unset, loading the MonaiValley setrun module stops
with the descriptive message of the source before any run parameters are
built; if the topo (resp. dtopo) directory does not exist, loading the
problem2 setrun module stops with an error naming that directory.  In the
model a module load is a single expression, so a raised error is final:
nothing is retried. -/
theorem missing_env_fails_fast
    (env : String → Option String) (isdir : String → Bool) (home : String)
    (hclaw : env "CLAW" = none) (hhome : env "HOME" = some home) :
    module_load env = .error "*** Must first set CLAW enviornment variable"
    ∧ (isdir (Japan1Setrun.topodir home) = false →
        Japan1Setrun.module_load env isdir
          = .error ("*** Missing topo directory: "
              ++ Japan1Setrun.topodir home))
    ∧ (isdir (Japan1Setrun.topodir home) = true →
        isdir (Japan1Setrun.dtopodir home) = false →
        Japan1Setrun.module_load env isdir
          = .error ("*** Missing dtopo directory: "
              ++ Japan1Setrun.dtopodir home)) := by
  refine ⟨?_, ?_, ?_⟩
  · simp [module_load, hclaw]
  · intro htopo
    simp [Japan1Setrun.module_load, hhome, htopo]
  · intro htopo hdtopo
    simp [Japan1Setrun.module_load, hhome, htopo, hdtopo]

/-- Witness for C7: a concrete environment where only `HOME` is set and no
directory exists: the MonaiValley load stops on the missing `CLAW`, and the
problem2 load stops naming the missing topo directory. -/
theorem missing_env_fails_fast_witness :
    module_load (fun k => if k = "HOME" then some "/home/u" else none)
      = .error "*** Must first set CLAW enviornment variable"
    ∧ Japan1Setrun.module_load
        (fun k => if k = "HOME" then some "/home/u" else none)
        (fun _ => false)
      = .error ("*** Missing topo directory: "
          ++ Japan1Setrun.topodir "/home/u") := by
  have h := missing_env_fails_fast
    (fun k => if k = "HOME" then some "/home/u" else none)
    (fun _ => false) "/home/u" (by decide) (by decide)
  exact ⟨h.1, h.2.1 rfl⟩

end MonaiSetrun

namespace Problem1Take2

/-!
Embedding of the velocity-computing helpers of
`src/nthmp_currents_2015/problem1_take2/setplot.py`.  A grid cell carries
position `(x, y)` and the solution components depth `h` and momenta
`hu, hv`; the helpers map over the cell array.  Each helper repeats the
same inline guard `where(h > dry_tol, q/h, 0.)`.
-/

/-- One grid cell of `current_data`: coordinates and solution components. -/
structure Cell where
  x : ℚ
  y : ℚ
  h : ℚ
  hu : ℚ
  hv : ℚ
deriving DecidableEq, Repr

/-- The dry tolerance `dry_tol = 0.001` used by every helper. -/
def dry_tol : ℚ := 0.001

/-- The helper `u(current_data)`: u velocity per cell, guarded by the dry
tolerance. -/
def u (q : List Cell) : List ℚ :=
  q.map fun c => if c.h > dry_tol then c.hu / c.h else 0

/-- The helper `v(current_data)`: v velocity per cell, guarded by the dry
tolerance. -/
def v (q : List Cell) : List ℚ :=
  q.map fun c => if c.h > dry_tol then c.hv / c.h else 0

/-- The helper `speed(current_data)`: `sqrt(u**2 + v**2)` per cell, with
the same guarded `u` and `v` (reals, because of the square root). -/
noncomputable def speed (q : List Cell) : List ℝ :=
  q.map fun c =>
    let uu : ℝ := if c.h > dry_tol then (c.hu : ℝ) / (c.h : ℝ) else 0
    let vv : ℝ := if c.h > dry_tol then (c.hv : ℝ) / (c.h : ℝ) else 0
    Real.sqrt (uu ^ 2 + vv ^ 2)

/-- The helper `xsec_s(current_data)`: guarded u velocity per cell, then
the slice of cells whose `y` lies within `dy/2` of the transect 0.76;
returns the sliced x coordinates and u values. -/
def xsec_s (q : List Cell) (dy : ℚ) : List ℚ × List ℚ :=
  let sel := q.filter fun c =>
    decide (c.y ≤ 0.76 + dy / 2) && decide (0.76 - dy / 2 < c.y)
  (sel.map Cell.x,
   sel.map fun c => if c.h > dry_tol then c.hu / c.h else 0)

/-- Claim C9: every velocity-computing helper of the module guards the
division by depth: at a cell with depth at most the dry tolerance 0.001 the
computed u and v velocities (and hence the speed) are exactly 0, at a cell
with depth above the tolerance they equal momentum divided by depth, and
the transect helper `xsec_s` returns only such guarded values, so no helper
returns an infinite or undefined velocity for a dry cell. -/
theorem velocity_dry_guard (q : List Cell) (dy : ℚ) (i : ℕ) (c : Cell)
    (hc : q[i]? = some c) :
    (c.h ≤ dry_tol →
        (u q)[i]? = some 0
        ∧ (v q)[i]? = some 0
        ∧ (speed q)[i]? = some 0)
    ∧ (dry_tol < c.h →
        (u q)[i]? = some (c.hu / c.h)
        ∧ (v q)[i]? = some (c.hv / c.h))
    ∧ (∀ w ∈ (xsec_s q dy).2, ∃ c' ∈ q,
        (c'.h ≤ dry_tol → w = 0)
        ∧ (dry_tol < c'.h → w = c'.hu / c'.h)) := by
  refine ⟨?_, ?_, ?_⟩
  · intro hdry
    have hlt : ¬ c.h > dry_tol := not_lt.mpr hdry
    refine ⟨?_, ?_, ?_⟩
    · simp [u, List.getElem?_map, hc, hlt]
    · simp [v, List.getElem?_map, hc, hlt]
    · simp [speed, List.getElem?_map, hc, hlt]
  · intro hwet
    refine ⟨?_, ?_⟩
    · simp [u, List.getElem?_map, hc, hwet]
    · simp [v, List.getElem?_map, hc, hwet]
  · intro w hw
    obtain ⟨c', hsel, hval⟩ := List.mem_map.mp hw
    refine ⟨c', (List.mem_filter.mp hsel).1, ?_, ?_⟩
    · intro hdry
      have hlt : ¬ c'.h > dry_tol := not_lt.mpr hdry
      simp [hlt] at hval
      exact hval.symm
    · intro hwet
      simp [hwet] at hval
      exact hval.symm

/-- Witness for C9 at a dry cell `h = 0` with nonzero momenta: all three
per-cell helpers return velocity 0. -/
theorem velocity_dry_guard_witness :
    (u [⟨0, 0, 0, 5, 7⟩])[0]? = some 0
    ∧ (v [⟨0, 0, 0, 5, 7⟩])[0]? = some 0
    ∧ (speed [⟨0, 0, 0, 5, 7⟩])[0]? = some 0 :=
  (velocity_dry_guard [⟨0, 0, 0, 5, 7⟩] 1 0 ⟨0, 0, 0, 5, 7⟩ rfl).1
    (by norm_num [dry_tol])

end Problem1Take2
